import Mathlib

/-!
Shallow embedding of the postgres-agent orchestration core
(src/llm.py and src/main.py) and verification of its specification.

The external collaborators are modelled as oracles:
* the model gateway is a function from the call index (calls are strictly
  sequential) to either a raised error or a response, i.e. an ordered list of
  content blocks;
* the tool-hosting session's call_tool is a function from the dispatch index
  and the tool-use block to either a raised error or a stringified result
  payload (Python's str(result.content) is modelled as the payload itself,
  which is already a string in this model);
* read_resource and list_tools are one-shot oracle values.

Python exceptions are modelled as Except.error; all file logging and printing
(side effects explicitly outside the functional contract) is omitted.
-/

namespace PostgresAgent

/-- A tool_use content block of a model response: id, name and input
arguments (arguments kept opaque as a string). -/
structure ToolUseB where
  id : String
  name : String
  input : String
deriving DecidableEq, Repr

/-- One content block of a model response: a text block or a tool_use
block (the two runtime type tags switched on in src/llm.py:143-144 and
src/main.py:100-101,137-138). -/
inductive ContentBlock where
  | text (s : String)
  | toolUse (tu : ToolUseB)
deriving DecidableEq, Repr

/-- A tool_result dict as built at src/llm.py:154-165 / src/main.py:111-122.
The "type" key is always "tool_result" and is left implicit.  The optional
"is_error" key is modelled by an Option: none means the key is absent
(success path), some true means the key is present with value True
(failure path). -/
structure ToolResult where
  tool_use_id : String
  content : String
  is_error : Option Bool
deriving DecidableEq, Repr

/-- The content of a conversation message: plain text, the content-block
list of an assistant response, or the tool_result list of a synthetic user
message. -/
inductive MsgContent where
  | text (s : String)
  | blocks (bs : List ContentBlock)
  | results (rs : List ToolResult)
deriving DecidableEq, Repr

/-- A conversation message: a role tag and a content payload. -/
structure Message where
  role : String
  content : MsgContent
deriving DecidableEq, Repr

/-- create_message (src/llm.py:9-14): builds the message dict verbatim from
its arguments.  In Python the role parameter defaults to "user"; the body
performs no validation of either argument. -/
def create_message (content : String) (role : String) : Message :=
  { role := role, content := MsgContent.text content }

/-- The tool_use blocks of a response content list, in order (the blocks
selected by the type == tool_use test of the dispatch for-loop). -/
def toolUses : List ContentBlock → List ToolUseB
  | [] => []
  | ContentBlock.text _ :: rest => toolUses rest
  | ContentBlock.toolUse tu :: rest => tu :: toolUses rest

/-- The texts of the text blocks of a response content list, in order. -/
def textBlocks : List ContentBlock → List String
  | [] => []
  | ContentBlock.text t :: rest => t :: textBlocks rest
  | ContentBlock.toolUse _ :: rest => textBlocks rest

/-- extract_response_text (src/llm.py:28-37): concatenates the text of every
block that has a text attribute, i.e. every text block; tool_use blocks have
no text attribute and their type tag is not the string text, so they
contribute nothing. -/
def extract_response_text : List ContentBlock → String
  | [] => ""
  | ContentBlock.text t :: rest => t ++ extract_response_text rest
  | ContentBlock.toolUse _ :: rest => extract_response_text rest

/-- The two sequential oracles of the execution loop: the model gateway
(indexed by gateway-call count) and the session's call_tool (indexed by
tool-dispatch count). -/
structure ExecEnv where
  gateway : Nat → Except String (List ContentBlock)
  callTool : Nat → ToolUseB → Except String String

/-- The per-tool-use try/except of src/llm.py:152-165 / src/main.py:109-122:
on success, a tool_result with the stringified payload and no is_error key;
on a raised session error, a tool_result whose content is the captured
message prefixed with Error: and whose is_error key is True.  Never fails. -/
def dispatchTool (env : ExecEnv) (d : Nat) (tu : ToolUseB) : ToolResult :=
  match env.callTool d tu with
  | Except.ok r =>
    { tool_use_id := tu.id, content := r, is_error := none }
  | Except.error e =>
    { tool_use_id := tu.id, content := "Error: " ++ e, is_error := some true }

/-- Result of one pass of the for-loop over a response's content blocks:
the tool_calls_made flag, the collected tool_results in arrival order, and
the tool_use blocks dispatched in order. -/
structure ScanOut where
  made : Bool
  results : List ToolResult
  dispatched : List ToolUseB
deriving DecidableEq, Repr

/-- The for-loop of src/llm.py:143-165 / src/main.py:100-122: scans the
response blocks in order; each tool_use block sets tool_calls_made, is
dispatched at the next dispatch index, and its tool_result is appended. -/
def scanBlocks (env : ExecEnv) (d : Nat) : List ContentBlock → ScanOut
  | [] => { made := false, results := [], dispatched := [] }
  | ContentBlock.text _ :: rest => scanBlocks env d rest
  | ContentBlock.toolUse tu :: rest =>
    let r := dispatchTool env d tu
    let s := scanBlocks env (d + 1) rest
    { made := true, results := r :: s.results, dispatched := tu :: s.dispatched }

/-- Sequential dispatch of a list of tool_use blocks starting at dispatch
index d (specification of the results field of scanBlocks). -/
def dispatchResults (env : ExecEnv) : Nat → List ToolUseB → List ToolResult
  | _, [] => []
  | d, tu :: rest => dispatchTool env d tu :: dispatchResults env (d + 1) rest

/-- Observable outcome of the execution loop: the content of the last model
response, the final conversation history, the number of gateway calls made,
and the tool_use blocks dispatched, in dispatch order. -/
structure ExecOutcome where
  lastContent : List ContentBlock
  messages : List Message
  gatewayCalls : Nat
  dispatched : List ToolUseB
deriving DecidableEq, Repr

/-- The assistant message appended at src/llm.py:134-137 / src/main.py:91-94,
carrying the full content-block list of the model response. -/
def assistantMessage (c : List ContentBlock) : Message :=
  { role := "assistant", content := MsgContent.blocks c }

/-- The synthetic user message appended at src/llm.py:172-176 /
src/main.py:129-133, carrying the collected tool_results. -/
def userResultsMessage (rs : List ToolResult) : Message :=
  { role := "user", content := MsgContent.results rs }

/-- The while-loop of src/llm.py:127-176 / src/main.py:79-133.  fuel is the
number of remaining iterations (max_iterations - iteration); gIdx counts
gateway calls made so far, acc accumulates dispatched tool_use blocks (so
acc.length is the next dispatch index), messages is the conversation, and
last is the response of the previous iteration.  At fuel 0 the bound is
reached and the loop exits with the last response; otherwise one iteration
runs: gateway call (a raised error propagates), append the assistant
message, scan and dispatch the tool_use blocks, break if none were made,
else append the tool_results user message (guarded, as in the source, by
the list being nonempty) and continue. -/
def execLoop (env : ExecEnv) :
    Nat → Nat → List ToolUseB → List Message → List ContentBlock →
    Except String ExecOutcome
  | 0, gIdx, acc, messages, last =>
    Except.ok
      { lastContent := last, messages := messages, gatewayCalls := gIdx,
        dispatched := acc }
  | fuel + 1, gIdx, acc, messages, _last =>
    match env.gateway gIdx with
    | Except.error e => Except.error e
    | Except.ok content =>
      let messages1 := messages ++ [assistantMessage content]
      let s := scanBlocks env acc.length content
      if s.made = false then
        Except.ok
          { lastContent := content, messages := messages1,
            gatewayCalls := gIdx + 1, dispatched := acc }
      else
        let messages2 :=
          if s.results.isEmpty then messages1
          else messages1 ++ [userResultsMessage s.results]
        execLoop env fuel (gIdx + 1) (acc ++ s.dispatched) messages2 content

/-- The planning prompt template of src/llm.py:65-86 (prose and whitespace
of the f-string condensed; no verified property depends on this text). -/
def planning_prompt (prompt context : String) : String :=
  "You are a SQL query planner. Analyze the request and create a detailed execution plan. User Request: "
    ++ prompt ++ " Available Database Schema: " ++ context
    ++ " Create a comprehensive plan in this EXACT format: # CONTEXT: # OBJECTIVE: # INSTRUCTIONS: # EXAMPLE: Make sure to complete ALL sections fully."

/-- The execution prompt template of src/llm.py:107-118 (prose and
whitespace of the f-string condensed; no verified property depends on it). -/
def execution_prompt (prompt planning_text : String) : String :=
  "You are a SQL execution assistant. Use the provided plan to complete the request. ORIGINAL USER REQUEST: "
    ++ prompt ++ " EXECUTION PLAN: " ++ planning_text
    ++ " Now execute this plan step by step. Begin execution now."

/-- execution_phase (src/llm.py:104-188): seeds the conversation with one
user message built by create_message, runs the loop with max_iterations 10,
extracts the final text with extract_response_text (no fallback), and wraps
any raised error with the execution phase tag.  The ExecOutcome is returned
alongside the string as the observable trace of the run. -/
def execution_phase (env : ExecEnv) (prompt planning_text : String) :
    Except String (String × ExecOutcome) :=
  match execLoop env 10 0 []
      [create_message (execution_prompt prompt planning_text) "user"] [] with
  | Except.error e => Except.error ("Error in execution phase: " ++ e)
  | Except.ok o => Except.ok (extract_response_text o.lastContent, o)

/-- planning_phase (src/llm.py:63-102): one gateway call on the single
planning message (the gateway oracle here maps the message list to a
response), extract_response_text of the response returned verbatim —
no section-presence validation — and any raised error wrapped with the
planning phase tag. -/
def planning_phase (gw : List Message → Except String (List ContentBlock))
    (prompt context : String) : Except String String :=
  match gw [create_message (planning_prompt prompt context) "user"] with
  | Except.error e => Except.error ("Error in planning phase: " ++ e)
  | Except.ok content => Except.ok (extract_response_text content)

/-- A tool record as returned by the session's list_tools. -/
structure McpTool where
  name : String
  description : String
  inputSchema : String
deriving DecidableEq, Repr

/-- A tool descriptor dict as built by get_available_tools
(src/llm.py:57-61) / src/main.py:69-73. -/
structure ToolDescriptor where
  name : String
  description : String
  input_schema : String
deriving DecidableEq, Repr

/-- The non-loop surface of the external session: read_resource for the
schema (an error models a raised exception; the ok payload is the contents
list with each text already extracted) and list_tools. -/
structure Session where
  readResource : Except String (List String)
  listTools : Except String (List McpTool)

/-- get_database_schema (src/llm.py:39-52): best effort — a raised error is
caught and degrades to the empty string, an empty contents list yields the
empty string, else the first content's text. -/
def get_database_schema (s : Session) : String :=
  match s.readResource with
  | Except.error _ => ""
  | Except.ok [] => ""
  | Except.ok (c :: _) => c

/-- get_available_tools (src/llm.py:54-61): calls list_tools with no guard
(a raised error propagates) and maps each tool to its descriptor dict. -/
def get_available_tools (s : Session) : Except String (List ToolDescriptor) :=
  match s.listTools with
  | Except.error e => Except.error e
  | Except.ok tools =>
    Except.ok (tools.map fun t =>
      { name := t.name, description := t.description,
        input_schema := t.inputSchema })

/-- process_prompt (src/llm.py:190-206): schema retrieval (never fails),
tool-catalog retrieval (may fail), planning, execution; any raised error
from the sequence is caught at the top and converted to the descriptive
string with the process_prompt prefix.  Always returns a string. -/
def process_prompt (s : Session)
    (planGW : List Message → Except String (List ContentBlock))
    (env : ExecEnv) (prompt : String) : String :=
  let context := get_database_schema s
  match get_available_tools s with
  | Except.error e => "Error in process_prompt: " ++ e
  | Except.ok _tools =>
    match planning_phase planGW prompt context with
    | Except.error e => "Error in process_prompt: " ++ e
    | Except.ok planning_text =>
      match execution_phase env prompt planning_text with
      | Except.error e => "Error in process_prompt: " ++ e
      | Except.ok (finalResult, _) => finalResult

/-- The seed user message text of process_query (src/main.py:52-59): the
query plus the schema context, where the schema read is best effort — a
raised error is caught and degrades to the empty string, an empty contents
list yields the empty string, else the first content's text. -/
def querySeed (s : Session) (query : String) : String :=
  query ++ "\n\nDatabase schema context:\n" ++
    (match s.readResource with
     | Except.error _ => ""
     | Except.ok [] => ""
     | Except.ok (c :: _) => c)

/-- process_query (src/main.py:49-141): the near-duplicate loop — best
effort schema read, list_tools with no guard, the same while-loop with
max_iterations 10, but final extraction joins the text blocks of the last
response with newlines and falls back to a fixed non-empty string when
there are none; no top-level wrapping, errors propagate to the caller. -/
def process_query (s : Session) (env : ExecEnv) (query : String) :
    Except String (String × ExecOutcome) :=
  let seed := querySeed s query
  match s.listTools with
  | Except.error e => Except.error e
  | Except.ok _tools =>
    match execLoop env 10 0 []
        [{ role := "user", content := MsgContent.text seed }] [] with
    | Except.error e => Except.error e
    | Except.ok o =>
      let texts := textBlocks o.lastContent
      Except.ok
        ((if texts.isEmpty then "No text response received."
          else String.intercalate "\n" texts), o)

/-- Conversation histories reachable by the execution loop: a single seed
user text message, then repeated extension by an assistant response message,
optionally followed by a tool_results user message whose tool_use_ids are,
in order, the ids of the tool_use blocks of that assistant response. -/
inductive GoodHist : List Message → Prop where
  | seed (s : String) :
      GoodHist [{ role := "user", content := MsgContent.text s }]
  | asst (msgs : List Message) (c : List ContentBlock) :
      GoodHist msgs → GoodHist (msgs ++ [assistantMessage c])
  | tools (msgs : List Message) (c : List ContentBlock) (rs : List ToolResult) :
      GoodHist msgs →
      rs.map (fun r => r.tool_use_id) = (toolUses c).map (fun tu => tu.id) →
      GoodHist ((msgs ++ [assistantMessage c]) ++ [userResultsMessage rs])

/-- Correlation invariant on a conversation history: no tool_results message
comes first, and every tool_results message is immediately preceded by an
assistant message whose tool_use ids it echoes, in the same order. -/
def resultsCorrelated (msgs : List Message) : Prop :=
  (∀ m rs, msgs[0]? = some m → m.content = MsgContent.results rs → False) ∧
  (∀ i m rs, msgs[i + 1]? = some m → m.content = MsgContent.results rs →
    ∃ c, msgs[i]? = some (assistantMessage c) ∧
      rs.map (fun r => r.tool_use_id) = (toolUses c).map (fun tu => tu.id))

/-- Environment whose gateway always answers with one tool_use block and
whose session always succeeds (used to evaluate the iteration bound). -/
def envBound : ExecEnv where
  gateway := fun _ => Except.ok [ContentBlock.toolUse
    { id := "tu-b", name := "query", input := "select 1" }]
  callTool := fun _ _ => Except.ok "rows"

/-- A second always-tool environment with distinct payloads (used to
evaluate the forced-stop dispatch property on a closed input). -/
def envForcedStop : ExecEnv where
  gateway := fun _ => Except.ok [ContentBlock.toolUse
    { id := "tu-f", name := "fetch", input := "select 2" }]
  callTool := fun _ _ => Except.ok "data"

/-- Environment whose first response is pure text (used to evaluate the
single-call early-exit property). -/
def envTextOnly : ExecEnv where
  gateway := fun _ => Except.ok [ContentBlock.text "done"]
  callTool := fun _ _ => Except.error "unused"

/-- Environment whose session always raises (used to evaluate the captured
tool-failure property). -/
def envToolFail : ExecEnv where
  gateway := fun _ => Except.ok [ContentBlock.toolUse
    { id := "tu-e", name := "query", input := "select 3" }]
  callTool := fun _ _ => Except.error "boom"

/-- Environment whose first response has no content blocks at all (used to
exhibit the empty-string final output of execution_phase). -/
def envEmptyResp : ExecEnv where
  gateway := fun _ => Except.ok []
  callTool := fun _ _ => Except.ok "unused"

/-- Environment with one tool round followed by a text answer (used to
evaluate the correlation invariant on a closed two-iteration run). -/
def envTwoRound : ExecEnv where
  gateway := fun i =>
    if i = 0 then
      Except.ok [ContentBlock.toolUse
        { id := "tu-2r", name := "query", input := "select 4" }]
    else Except.ok [ContentBlock.text "answer"]
  callTool := fun _ _ => Except.ok "res"

/-- Environment whose session succeeds on dispatch 0 and raises on every
later dispatch (used to evaluate both branches of the dispatcher). -/
def envMixedTool : ExecEnv where
  gateway := fun _ => Except.ok []
  callTool := fun d _ => if d = 0 then Except.ok "good" else Except.error "bad"

/-- A session whose resource read and tool listing both succeed. -/
def sessOk : Session where
  readResource := Except.ok ["table players(name, points)"]
  listTools := Except.ok []

/-- A planning gateway returning plain text that contains none of the four
required section headings. -/
def gwPlainText : List Message → Except String (List ContentBlock) :=
  fun _ => Except.ok [ContentBlock.text "just a plain answer"]

/-- A concrete tool_use block used in closed evaluations. -/
def tuW : ToolUseB where
  id := "tu-m"
  name := "query"
  input := "select 5"

/-! Basic lemmas about the dispatcher and the block scan. -/

theorem dispatchTool_tool_use_id (env : ExecEnv) (d : Nat) (tu : ToolUseB) :
    (dispatchTool env d tu).tool_use_id = tu.id := by
  unfold dispatchTool
  cases env.callTool d tu <;> rfl

theorem scanBlocks_results (env : ExecEnv) :
    ∀ (c : List ContentBlock) (d : Nat),
      (scanBlocks env d c).results = dispatchResults env d (toolUses c)
  | [], _ => rfl
  | ContentBlock.text _ :: rest, d => by
    simpa [scanBlocks, toolUses] using scanBlocks_results env rest d
  | ContentBlock.toolUse tu :: rest, d => by
    simp [scanBlocks, toolUses, dispatchResults,
      scanBlocks_results env rest (d + 1)]

theorem scanBlocks_dispatched (env : ExecEnv) :
    ∀ (c : List ContentBlock) (d : Nat),
      (scanBlocks env d c).dispatched = toolUses c
  | [], _ => rfl
  | ContentBlock.text _ :: rest, d => by
    simpa [scanBlocks, toolUses] using scanBlocks_dispatched env rest d
  | ContentBlock.toolUse tu :: rest, d => by
    simp [scanBlocks, toolUses, scanBlocks_dispatched env rest (d + 1)]

theorem scanBlocks_made (env : ExecEnv) :
    ∀ (c : List ContentBlock) (d : Nat),
      (scanBlocks env d c).made = !(toolUses c).isEmpty
  | [], _ => rfl
  | ContentBlock.text _ :: rest, d => by
    simpa [scanBlocks, toolUses] using scanBlocks_made env rest d
  | ContentBlock.toolUse tu :: rest, d => by
    simp [scanBlocks, toolUses]

theorem dispatchResults_map_id (env : ExecEnv) :
    ∀ (tus : List ToolUseB) (d : Nat),
      (dispatchResults env d tus).map (fun r => r.tool_use_id) =
        tus.map (fun tu => tu.id)
  | [], _ => rfl
  | tu :: rest, d => by
    simp [dispatchResults, dispatchTool_tool_use_id,
      dispatchResults_map_id env rest (d + 1)]

theorem dispatchResults_getElem (env : ExecEnv) :
    ∀ (tus : List ToolUseB) (d k : Nat) (tu : ToolUseB),
      tus[k]? = some tu →
      (dispatchResults env d tus)[k]? = some (dispatchTool env (d + k) tu)
  | [], _, k, _, h => by simp at h
  | t :: rest, d, 0, tu, h => by
    simp at h
    subst h
    simp [dispatchResults]
  | t :: rest, d, k + 1, tu, h => by
    simp only [List.getElem?_cons_succ] at h
    have := dispatchResults_getElem env rest (d + 1) k tu h
    simpa [dispatchResults, Nat.add_assoc, Nat.add_comm 1 k] using this

theorem dispatchResults_ne_nil (env : ExecEnv) (d : Nat)
    (tus : List ToolUseB) (h : tus ≠ []) :
    (dispatchResults env d tus).isEmpty = false := by
  cases tus with
  | nil => exact absurd rfl h
  | cons t rest => simp [dispatchResults]

/-! Step equations for the execution loop. -/

theorem execLoop_zero (env : ExecEnv) (gIdx : Nat) (acc : List ToolUseB)
    (msgs : List Message) (last : List ContentBlock) :
    execLoop env 0 gIdx acc msgs last =
      Except.ok
        { lastContent := last, messages := msgs, gatewayCalls := gIdx,
          dispatched := acc } := rfl

theorem execLoop_gwError (env : ExecEnv) {gIdx : Nat} {e : String}
    (fuel : Nat) (acc : List ToolUseB) (msgs : List Message)
    (last : List ContentBlock) (h : env.gateway gIdx = Except.error e) :
    execLoop env (fuel + 1) gIdx acc msgs last = Except.error e := by
  unfold execLoop
  rw [h]

theorem execLoop_stop (env : ExecEnv) {gIdx : Nat} {c : List ContentBlock}
    (fuel : Nat) (acc : List ToolUseB) (msgs : List Message)
    (last : List ContentBlock) (h : env.gateway gIdx = Except.ok c)
    (h2 : toolUses c = []) :
    execLoop env (fuel + 1) gIdx acc msgs last =
      Except.ok
        { lastContent := c, messages := msgs ++ [assistantMessage c],
          gatewayCalls := gIdx + 1, dispatched := acc } := by
  have hm : (scanBlocks env acc.length c).made = false := by
    rw [scanBlocks_made, h2]
    rfl
  unfold execLoop
  rw [h]
  simp [hm]

theorem execLoop_step (env : ExecEnv) {gIdx : Nat} {c : List ContentBlock}
    (fuel : Nat) (acc : List ToolUseB) (msgs : List Message)
    (last : List ContentBlock) (h : env.gateway gIdx = Except.ok c)
    (h2 : toolUses c ≠ []) :
    execLoop env (fuel + 1) gIdx acc msgs last =
      execLoop env fuel (gIdx + 1) (acc ++ toolUses c)
        ((msgs ++ [assistantMessage c]) ++
          [userResultsMessage (dispatchResults env acc.length (toolUses c))])
        c := by
  have hm : (scanBlocks env acc.length c).made = true := by
    rw [scanBlocks_made]
    cases h3 : toolUses c with
    | nil => exact absurd h3 h2
    | cons t rest => simp
  have hr : (scanBlocks env acc.length c).results =
      dispatchResults env acc.length (toolUses c) := scanBlocks_results env c _
  have hd : (scanBlocks env acc.length c).dispatched = toolUses c :=
    scanBlocks_dispatched env c _
  have hne : (dispatchResults env acc.length (toolUses c)).isEmpty = false :=
    dispatchResults_ne_nil env _ _ h2
  conv_lhs => unfold execLoop
  rw [h]
  simp [hm, hr, hd, hne]

/-- Shape of a run in which every gateway response within the fuel budget
carries at least one tool_use block: the loop consumes all its fuel, making
one gateway call per unit of fuel, and ends having dispatched the last
response's tool uses and appended the corresponding tool_results message. -/
theorem execLoop_allToolUse (env : ExecEnv) :
    ∀ (fuel : Nat), 0 < fuel →
    ∀ (gIdx : Nat) (acc : List ToolUseB) (msgs : List Message)
      (last : List ContentBlock),
      (∀ j, j < fuel →
        ∃ c, env.gateway (gIdx + j) = Except.ok c ∧ toolUses c ≠ []) →
      ∃ c o, env.gateway (gIdx + fuel - 1) = Except.ok c ∧
        execLoop env fuel gIdx acc msgs last = Except.ok o ∧
        o.lastContent = c ∧ o.gatewayCalls = gIdx + fuel ∧
        ∃ dpre mpre, o.dispatched = dpre ++ toolUses c ∧
          o.messages = mpre ++ [assistantMessage c,
            userResultsMessage (dispatchResults env dpre.length (toolUses c))] := by
  intro fuel
  induction fuel with
  | zero => intro h; exact absurd h (by omega)
  | succ n ih =>
    intro _ gIdx acc msgs last hall
    obtain ⟨c0, hc0, hne0⟩ := hall 0 (Nat.succ_pos n)
    rw [Nat.add_zero] at hc0
    cases n with
    | zero =>
      refine ⟨c0,
        { lastContent := c0,
          messages := (msgs ++ [assistantMessage c0]) ++
            [userResultsMessage (dispatchResults env acc.length (toolUses c0))],
          gatewayCalls := gIdx + 1, dispatched := acc ++ toolUses c0 },
        by simpa using hc0, ?_, rfl, rfl, acc, msgs, rfl, by simp⟩
      rw [execLoop_step env 0 acc msgs last hc0 hne0, execLoop_zero]
    | succ m =>
      have hall' : ∀ j, j < m + 1 →
          ∃ c, env.gateway (gIdx + 1 + j) = Except.ok c ∧ toolUses c ≠ [] := by
        intro j hj
        obtain ⟨c', hc', hne'⟩ := hall (j + 1) (by omega)
        exact ⟨c', by rw [show gIdx + 1 + j = gIdx + (j + 1) by omega]; exact hc',
          hne'⟩
      obtain ⟨c, o, hc, hrun, hlast, hcalls, dpre, mpre, hdisp, hmsgs⟩ :=
        ih (Nat.succ_pos m) (gIdx + 1) (acc ++ toolUses c0)
          ((msgs ++ [assistantMessage c0]) ++
            [userResultsMessage (dispatchResults env acc.length (toolUses c0))])
          c0 hall'
      refine ⟨c, o, ?_, ?_, hlast, ?_, dpre, mpre, hdisp, hmsgs⟩
      · rw [show gIdx + (m + 1 + 1) - 1 = gIdx + 1 + (m + 1) - 1 by omega]
        exact hc
      · rw [execLoop_step env (m + 1) acc msgs last hc0 hne0]
        exact hrun
      · rw [hcalls]; omega

/-- The execution loop preserves the reachable-history predicate. -/
theorem execLoop_goodHist (env : ExecEnv) :
    ∀ (fuel gIdx : Nat) (acc : List ToolUseB) (msgs : List Message)
      (last : List ContentBlock) (o : ExecOutcome),
      GoodHist msgs → execLoop env fuel gIdx acc msgs last = Except.ok o →
      GoodHist o.messages := by
  intro fuel
  induction fuel with
  | zero =>
    intro gIdx acc msgs last o hg hrun
    rw [execLoop_zero] at hrun
    cases hrun
    exact hg
  | succ n ih =>
    intro gIdx acc msgs last o hg hrun
    cases hgw : env.gateway gIdx with
    | error e =>
      rw [execLoop_gwError env n acc msgs last hgw] at hrun
      exact Except.noConfusion hrun
    | ok c =>
      rcases eq_or_ne (toolUses c) [] with htu | htu
      · rw [execLoop_stop env n acc msgs last hgw htu] at hrun
        cases hrun
        exact GoodHist.asst msgs c hg
      · rw [execLoop_step env n acc msgs last hgw htu] at hrun
        exact ih (gIdx + 1) (acc ++ toolUses c) _ c o
          (GoodHist.tools msgs c _ hg (dispatchResults_map_id env _ _)) hrun

/-- Every reachable history satisfies the correlation invariant. -/
theorem goodHist_resultsCorrelated {msgs : List Message}
    (h : GoodHist msgs) : resultsCorrelated msgs := by
  induction h with
  | seed s =>
    constructor
    · intro m rs h0 hc
      simp at h0
      subst h0
      simp at hc
    · intro i m rs h1 hc
      rw [List.getElem?_eq_none (by simp)] at h1
      exact Option.noConfusion h1
  | asst msgs c hgh ih =>
    obtain ⟨ih0, ihS⟩ := ih
    constructor
    · intro m rs h0 hc
      by_cases hL : 0 < msgs.length
      · rw [List.getElem?_append_left hL] at h0
        exact ih0 m rs h0 hc
      · have hnil : msgs = [] := List.length_eq_zero.mp (by omega)
        subst hnil
        simp at h0
        subst h0
        simp [assistantMessage] at hc
    · intro i m rs h1 hc
      by_cases hlt : i + 1 < msgs.length
      · rw [List.getElem?_append_left hlt] at h1
        obtain ⟨c', hia, hmap⟩ := ihS i m rs h1 hc
        exact ⟨c', by rw [List.getElem?_append_left (by omega)]; exact hia, hmap⟩
      · by_cases heq : i + 1 = msgs.length
        · rw [List.getElem?_append_right (by omega)] at h1
          rw [heq, Nat.sub_self] at h1
          simp at h1
          subst h1
          simp [assistantMessage] at hc
        · rw [List.getElem?_eq_none (by simp; omega)] at h1
          exact Option.noConfusion h1
  | tools msgs c rs0 hgh hmap ih =>
    obtain ⟨ih0, ihS⟩ := ih
    constructor
    · intro m rs h0 hc
      rw [List.getElem?_append_left (by simp)] at h0
      by_cases hL : 0 < msgs.length
      · rw [List.getElem?_append_left hL] at h0
        exact ih0 m rs h0 hc
      · have hnil : msgs = [] := List.length_eq_zero.mp (by omega)
        subst hnil
        simp at h0
        subst h0
        simp [assistantMessage] at hc
    · intro i m rs h1 hc
      by_cases hlt : i + 1 < msgs.length + 1
      · rw [List.getElem?_append_left (by simpa using hlt)] at h1
        by_cases hlt2 : i + 1 < msgs.length
        · rw [List.getElem?_append_left hlt2] at h1
          obtain ⟨c', hia, hmap'⟩ := ihS i m rs h1 hc
          refine ⟨c', ?_, hmap'⟩
          rw [List.getElem?_append_left (by simp; omega),
            List.getElem?_append_left (by omega)]
          exact hia
        · have heq : i + 1 = msgs.length := by omega
          rw [List.getElem?_append_right (by omega), heq, Nat.sub_self] at h1
          simp at h1
          subst h1
          simp [assistantMessage] at hc
      · by_cases heq : i + 1 = msgs.length + 1
        · refine ⟨c, ?_, ?_⟩
          · rw [List.getElem?_append_left
              (by simp; omega : i < (msgs ++ [assistantMessage c]).length)]
            rw [show i = msgs.length by omega]
            exact List.getElem?_concat_length msgs (assistantMessage c)
          · rw [List.getElem?_append_right (by simp; omega)] at h1
            rw [show i + 1 - (msgs ++ [assistantMessage c]).length = 0
              by simp; omega] at h1
            simp at h1
            subst h1
            simp [userResultsMessage] at hc
            subst hc
            exact hmap
        · rw [List.getElem?_eq_none (by simp; omega)] at h1
          exact Option.noConfusion h1

/-! Claim theorems. -/

/-- C1: for every session, planning gateway, execution environment and
request — including any behaviour in which they raise — process_prompt
returns a string and never propagates an exception: either the whole
pipeline succeeds and the execution result is returned, or the result is
the descriptive error string with the process_prompt prefix. -/
theorem C1_process_prompt_total (s : Session)
    (planGW : List Message → Except String (List ContentBlock))
    (env : ExecEnv) (prompt : String) :
    (∃ t r o,
      planning_phase planGW prompt (get_database_schema s) = Except.ok t ∧
      execution_phase env prompt t = Except.ok (r, o) ∧
      process_prompt s planGW env prompt = r) ∨
    (∃ e, process_prompt s planGW env prompt =
      "Error in process_prompt: " ++ e) := by
  cases hlt : get_available_tools s with
  | error e => exact Or.inr ⟨e, by simp [process_prompt, hlt]⟩
  | ok tools =>
    cases hp : planning_phase planGW prompt (get_database_schema s) with
    | error e => exact Or.inr ⟨e, by simp [process_prompt, hlt, hp]⟩
    | ok t =>
      cases he : execution_phase env prompt t with
      | error e => exact Or.inr ⟨e, by simp [process_prompt, hlt, hp, he]⟩
      | ok ro =>
        obtain ⟨r, o⟩ := ro
        exact Or.inl ⟨t, r, o, rfl, he, by simp [process_prompt, hlt, hp, he]⟩

/-- C2: if every one of the first 10 gateway responses carries at least one
tool_use block, the execution stage makes exactly 10 gateway calls and then
stops, and its final text is extracted from the 10th response rather than
treated as an error. -/
theorem C2_bound_enforcement (env : ExecEnv) (prompt planning_text : String)
    (hall : ∀ j, j < 10 →
      ∃ c, env.gateway j = Except.ok c ∧ toolUses c ≠ []) :
    ∃ c o, env.gateway 9 = Except.ok c ∧
      execution_phase env prompt planning_text =
        Except.ok (extract_response_text c, o) ∧
      o.gatewayCalls = 10 ∧ o.lastContent = c := by
  obtain ⟨c, o, hc, hrun, hlast, hcalls, _⟩ :=
    execLoop_allToolUse env 10 (by omega) 0 []
      [create_message (execution_prompt prompt planning_text) "user"] []
      (fun j hj => by simpa using hall j hj)
  refine ⟨c, o, by simpa using hc, ?_, by simpa using hcalls, hlast⟩
  unfold execution_phase
  rw [hrun]
  simp [hlast]

/-- C2 witness: with a gateway that always answers with one tool_use block,
the execution stage stops after exactly 10 calls. -/
theorem C2_bound_enforcement_witness :
    ∃ c o, envBound.gateway 9 = Except.ok c ∧
      execution_phase envBound "q" "p" =
        Except.ok (extract_response_text c, o) ∧
      o.gatewayCalls = 10 ∧ o.lastContent = c :=
  C2_bound_enforcement envBound "q" "p" (fun j _ =>
    ⟨[ContentBlock.toolUse
        { id := "tu-b", name := "query", input := "select 1" }],
      rfl, by decide⟩)

/-- C3: if the first gateway response contains zero tool_use blocks, exactly
one gateway call is made, no tool is dispatched, and the history ends with
that assistant response — nothing further is appended. -/
theorem C3_single_call_early_exit (env : ExecEnv)
    (prompt planning_text : String) (c : List ContentBlock)
    (h : env.gateway 0 = Except.ok c) (h2 : toolUses c = []) :
    execution_phase env prompt planning_text =
      Except.ok (extract_response_text c,
        { lastContent := c,
          messages :=
            [create_message (execution_prompt prompt planning_text) "user",
             assistantMessage c],
          gatewayCalls := 1, dispatched := [] }) := by
  unfold execution_phase
  rw [show (10 : Nat) = 9 + 1 by norm_num,
    execLoop_stop env 9 [] _ [] h h2]
  simp

/-- C3 witness: a first response of pure text ends the run after one call
with no dispatch and no message after the assistant response. -/
theorem C3_single_call_early_exit_witness :
    execution_phase envTextOnly "q" "p" =
      Except.ok (extract_response_text [ContentBlock.text "done"],
        { lastContent := [ContentBlock.text "done"],
          messages :=
            [create_message (execution_prompt "q" "p") "user",
             assistantMessage [ContentBlock.text "done"]],
          gatewayCalls := 1, dispatched := [] }) :=
  C3_single_call_early_exit envTextOnly "q" "p"
    [ContentBlock.text "done"] rfl (by decide)

/-- C4: when the session raises on the k-th tool_use of a response, the
dispatcher still produces a tool_result at position k whose content is the
captured message and whose is_error key is true; no exception propagates,
and the loop step goes on to its next iteration (the loop equation on the
right) instead of aborting. -/
theorem C4_tool_failure_captured (env : ExecEnv) (fuel gIdx : Nat)
    (acc : List ToolUseB) (msgs : List Message) (last c : List ContentBlock)
    (k : Nat) (tu : ToolUseB) (e : String)
    (hgw : env.gateway gIdx = Except.ok c)
    (hk : (toolUses c)[k]? = some tu)
    (hfail : env.callTool (acc.length + k) tu = Except.error e) :
    ((scanBlocks env acc.length c).results)[k]? =
      some { tool_use_id := tu.id, content := "Error: " ++ e,
             is_error := some true } ∧
    execLoop env (fuel + 1) gIdx acc msgs last =
      execLoop env fuel (gIdx + 1) (acc ++ toolUses c)
        ((msgs ++ [assistantMessage c]) ++
          [userResultsMessage (dispatchResults env acc.length (toolUses c))])
        c := by
  have hne : toolUses c ≠ [] := by
    intro h0
    rw [h0] at hk
    simp at hk
  constructor
  · rw [scanBlocks_results,
      dispatchResults_getElem env (toolUses c) acc.length k tu hk]
    unfold dispatchTool
    rw [hfail]
  · exact execLoop_step env fuel acc msgs last hgw hne

/-- C4 witness: a run in which the one requested tool raises with message
boom produces the captured error tool_result and the loop equation holds. -/
theorem C4_tool_failure_captured_witness :
    ((scanBlocks envToolFail 0
        [ContentBlock.toolUse
          { id := "tu-e", name := "query", input := "select 3" }]).results)[0]? =
      some { tool_use_id := "tu-e", content := "Error: " ++ "boom",
             is_error := some true } ∧
    execLoop envToolFail 1 0 [] [] [] =
      execLoop envToolFail 0 1
        ([] ++ toolUses [ContentBlock.toolUse
          { id := "tu-e", name := "query", input := "select 3" }])
        (([] ++ [assistantMessage [ContentBlock.toolUse
            { id := "tu-e", name := "query", input := "select 3" }]]) ++
          [userResultsMessage (dispatchResults envToolFail 0
            (toolUses [ContentBlock.toolUse
              { id := "tu-e", name := "query", input := "select 3" }]))])
        [ContentBlock.toolUse
          { id := "tu-e", name := "query", input := "select 3" }] :=
  C4_tool_failure_captured envToolFail 0 0 [] [] []
    [ContentBlock.toolUse { id := "tu-e", name := "query", input := "select 3" }]
    0 { id := "tu-e", name := "query", input := "select 3" } "boom"
    rfl (by decide) rfl

/-- C5: in every successful run of the execution stage, the final history
satisfies the correlation invariant — every tool_results message is
immediately preceded by an assistant message whose tool_use ids it echoes
verbatim and in the same order. -/
theorem C5_correlation_invariant (env : ExecEnv)
    (prompt planning_text r : String) (o : ExecOutcome)
    (h : execution_phase env prompt planning_text = Except.ok (r, o)) :
    resultsCorrelated o.messages := by
  unfold execution_phase at h
  cases hrun : execLoop env 10 0 []
      [create_message (execution_prompt prompt planning_text) "user"] [] with
  | error e =>
    rw [hrun] at h
    exact Except.noConfusion h
  | ok o' =>
    rw [hrun] at h
    simp only [Except.ok.injEq, Prod.mk.injEq] at h
    obtain ⟨-, h2⟩ := h
    subst h2
    exact goodHist_resultsCorrelated
      (execLoop_goodHist env 10 0 [] _ [] o'
        (GoodHist.seed (execution_prompt prompt planning_text)) hrun)

/-- C5 witness: the invariant holds of the closed two-iteration run with one
tool round followed by a text answer. -/
theorem C5_correlation_invariant_witness :
    resultsCorrelated
      [create_message (execution_prompt "q" "p") "user",
       assistantMessage [ContentBlock.toolUse
         { id := "tu-2r", name := "query", input := "select 4" }],
       userResultsMessage
         [{ tool_use_id := "tu-2r", content := "res", is_error := none }],
       assistantMessage [ContentBlock.text "answer"]] :=
  C5_correlation_invariant envTwoRound "q" "p" "answer"
    { lastContent := [ContentBlock.text "answer"],
      messages :=
        [create_message (execution_prompt "q" "p") "user",
         assistantMessage [ContentBlock.toolUse
           { id := "tu-2r", name := "query", input := "select 4" }],
         userResultsMessage
           [{ tool_use_id := "tu-2r", content := "res", is_error := none }],
         assistantMessage [ContentBlock.text "answer"]],
      gatewayCalls := 2,
      dispatched := [{ id := "tu-2r", name := "query", input := "select 4" }] }
    rfl

/-- C6 counterexample: a run of execution_phase (src/llm.py) whose last
response contains no text blocks returns the empty string — there is no
non-empty fallback in that stage, refuting the claim as stated. -/
theorem C6_empty_final_counterexample :
    execution_phase envEmptyResp "q" "p" =
      Except.ok ("",
        { lastContent := [],
          messages := [create_message (execution_prompt "q" "p") "user",
            assistantMessage []],
          gatewayCalls := 1, dispatched := [] }) ∧
    textBlocks ([] : List ContentBlock) = [] := ⟨rfl, rfl⟩

/-- C6 amended: execution_phase (src/llm.py) returns the plain concatenation
of the text blocks of the last response — the empty string when none exist,
with no fallback; only process_query (src/main.py) joins the text blocks
with newlines and returns the defined non-empty fallback string when the
last response has no text blocks. -/
theorem C6_final_extraction_amended :
    (∀ (env : ExecEnv) (prompt planning_text r : String) (o : ExecOutcome),
      execution_phase env prompt planning_text = Except.ok (r, o) →
      r = extract_response_text o.lastContent) ∧
    (∀ (s : Session) (env : ExecEnv) (query r : String) (o : ExecOutcome),
      process_query s env query = Except.ok (r, o) →
      (textBlocks o.lastContent = [] → r = "No text response received.") ∧
      (textBlocks o.lastContent ≠ [] →
        r = String.intercalate "\n" (textBlocks o.lastContent))) ∧
    "No text response received." ≠ "" := by
  refine ⟨?_, ?_, by decide⟩
  · intro env prompt planning_text r o h
    unfold execution_phase at h
    cases hrun : execLoop env 10 0 []
        [create_message (execution_prompt prompt planning_text) "user"] [] with
    | error e =>
      rw [hrun] at h
      exact Except.noConfusion h
    | ok o' =>
      rw [hrun] at h
      simp only [Except.ok.injEq, Prod.mk.injEq] at h
      obtain ⟨h1, h2⟩ := h
      subst h2
      exact h1.symm
  · intro s env query r o h
    cases hlt : s.listTools with
    | error e =>
      simp only [process_query, hlt] at h
      exact Except.noConfusion h
    | ok tools =>
      simp only [process_query, hlt] at h
      cases hrun : execLoop env 10 0 []
          [{ role := "user", content := MsgContent.text (querySeed s query) }]
          [] with
      | error e =>
        rw [hrun] at h
        exact Except.noConfusion h
      | ok o' =>
        rw [hrun] at h
        simp only [Except.ok.injEq, Prod.mk.injEq] at h
        obtain ⟨h1, h2⟩ := h
        subst h2
        constructor
        · intro htb
          rw [← h1, htb]
          simp
        · intro htb
          rw [← h1]
          cases htb2 : textBlocks o'.lastContent with
          | nil => exact absurd htb2 htb
          | cons a l => simp [htb2]

/-- C6 witness for the amended claim: a text-bearing last response yields
its concatenation in execution_phase, and a blockless last response yields
the fallback in process_query. -/
theorem C6_final_extraction_amended_witness :
    ("done" = extract_response_text [ContentBlock.text "done"]) ∧
    ("No text response received." = "No text response received.") := by
  constructor
  · exact C6_final_extraction_amended.1 envTextOnly "q" "p" "done"
      { lastContent := [ContentBlock.text "done"],
        messages := [create_message (execution_prompt "q" "p") "user",
          assistantMessage [ContentBlock.text "done"]],
        gatewayCalls := 1, dispatched := [] } rfl
  · exact (C6_final_extraction_amended.2.1 sessOk envEmptyResp "q"
      "No text response received."
      { lastContent := [],
        messages :=
          [{ role := "user", content := MsgContent.text (querySeed sessOk "q") },
           assistantMessage []],
        gatewayCalls := 1, dispatched := [] } rfl).1 rfl

/-- C7: the planning stage returns the concatenated text of the response
verbatim, with no section-presence validation — the theorem constrains the
response content in no way, so it covers responses missing any or all of
the four required sections. -/
theorem C7_planning_no_validation
    (gw : List Message → Except String (List ContentBlock))
    (prompt context : String) (c : List ContentBlock)
    (h : gw [create_message (planning_prompt prompt context) "user"] =
      Except.ok c) :
    planning_phase gw prompt context =
      Except.ok (extract_response_text c) := by
  simp [planning_phase, h]

/-- C7 witness: a response with none of the section headings is returned
verbatim rather than failing. -/
theorem C7_planning_no_validation_witness :
    planning_phase gwPlainText "q" "ctx" =
      Except.ok
        (extract_response_text [ContentBlock.text "just a plain answer"]) :=
  C7_planning_no_validation gwPlainText "q" "ctx"
    [ContentBlock.text "just a plain answer"] rfl

/-- C8 counterexample: create_message accepts the empty role — the call
with an empty role returns a message carrying that empty role instead of
being rejected, refuting the non-empty-role requirement of the claim. -/
theorem C8_empty_role_counterexample :
    create_message "hi" "" = { role := "", content := MsgContent.text "hi" } ∧
    (create_message "hi" "").role = "" := ⟨rfl, rfl⟩

/-- C8 amended: create_message is pure and performs no validation at all —
every role, the empty role included, is accepted, and the returned message
carries exactly the given role and content unchanged. -/
theorem C8_builder_amended (content role : String) :
    create_message content role =
      { role := role, content := MsgContent.text content } := rfl

/-- C9: when the bound stops the run while responses still carry tool_use
blocks, the tool uses of the 10th response are nevertheless each dispatched
(they form the final segment of the dispatch trace) and the history ends
with the tool_results message built from them, even though no further
gateway call consumes it. -/
theorem C9_forced_stop_still_dispatches (env : ExecEnv)
    (prompt planning_text : String)
    (hall : ∀ j, j < 10 →
      ∃ c, env.gateway j = Except.ok c ∧ toolUses c ≠ []) :
    ∃ c o dpre mpre, env.gateway 9 = Except.ok c ∧
      execution_phase env prompt planning_text =
        Except.ok (extract_response_text c, o) ∧
      o.gatewayCalls = 10 ∧
      o.dispatched = dpre ++ toolUses c ∧
      o.messages = mpre ++ [assistantMessage c,
        userResultsMessage (dispatchResults env dpre.length (toolUses c))] := by
  obtain ⟨c, o, hc, hrun, hlast, hcalls, dpre, mpre, hdisp, hmsgs⟩ :=
    execLoop_allToolUse env 10 (by omega) 0 []
      [create_message (execution_prompt prompt planning_text) "user"] []
      (fun j hj => by simpa using hall j hj)
  refine ⟨c, o, dpre, mpre, by simpa using hc, ?_, by simpa using hcalls,
    hdisp, hmsgs⟩
  unfold execution_phase
  rw [hrun]
  simp [hlast]

/-- C9 witness: with a gateway that always requests a tool, the forced stop
still dispatches the 10th response's tool use and appends its results. -/
theorem C9_forced_stop_still_dispatches_witness :
    ∃ c o dpre mpre, envForcedStop.gateway 9 = Except.ok c ∧
      execution_phase envForcedStop "q" "p" =
        Except.ok (extract_response_text c, o) ∧
      o.gatewayCalls = 10 ∧
      o.dispatched = dpre ++ toolUses c ∧
      o.messages = mpre ++ [assistantMessage c,
        userResultsMessage
          (dispatchResults envForcedStop dpre.length (toolUses c))] :=
  C9_forced_stop_still_dispatches envForcedStop "q" "p" (fun j _ =>
    ⟨[ContentBlock.toolUse
        { id := "tu-f", name := "fetch", input := "select 2" }],
      rfl, by decide⟩)

/-- C10: a successful dispatch produces a tool_result whose is_error key is
absent (none) and whose content is the stringified session payload; the
is_error key, with value true, is present exactly on the failure path. -/
theorem C10_is_error_only_on_failure (env : ExecEnv) (d : Nat)
    (tu : ToolUseB) :
    (∀ res, env.callTool d tu = Except.ok res →
      dispatchTool env d tu =
        { tool_use_id := tu.id, content := res, is_error := none }) ∧
    (∀ e, env.callTool d tu = Except.error e →
      dispatchTool env d tu =
        { tool_use_id := tu.id, content := "Error: " ++ e,
          is_error := some true }) := by
  constructor
  · intro res h
    simp [dispatchTool, h]
  · intro e h
    simp [dispatchTool, h]

/-- C10 witness: both dispatcher branches evaluated on a session that
succeeds on dispatch 0 and raises on dispatch 1. -/
theorem C10_is_error_only_on_failure_witness :
    dispatchTool envMixedTool 0 tuW =
      { tool_use_id := "tu-m", content := "good", is_error := none } ∧
    dispatchTool envMixedTool 1 tuW =
      { tool_use_id := "tu-m", content := "Error: " ++ "bad",
        is_error := some true } :=
  ⟨(C10_is_error_only_on_failure envMixedTool 0 tuW).1 "good" rfl,
   (C10_is_error_only_on_failure envMixedTool 1 tuW).2 "bad" rfl⟩

end PostgresAgent
